import Mathlib

/-!
Shallow embedding of the reconciliation and payment-optimization engine of the
invoice-processing repository (source file `invoice_agent.py`, data model
`models.py`).  Numeric amounts, tolerances and percentages are modelled over
`ℚ` (the source stores decimals in float columns; all quantities in the claims
are exact decimals).  Python strings are modelled as Lean `String`s, with
case-folding and substring containment implemented on their character lists.
-/

namespace InvoiceAgent

/-- Python `str.lower()` applied to a character list (ASCII case folding,
matching `Char.toLower` on the ASCII range used by the engine). -/
def lowerL (l : List Char) : List Char := l.map Char.toLower

/-- Python `str.lower()` on a `String`. -/
def strLower (s : String) : String := ⟨lowerL s.data⟩

/-- Does `hay` start with `needle`? (helper for the substring test). -/
def listStartsWith : List Char → List Char → Bool
  | [], _ => true
  | _ :: _, [] => false
  | a :: as, b :: bs => a == b && listStartsWith as bs

/-- Python substring membership `needle in hay` on character lists. -/
def pyIn : List Char → List Char → Bool
  | needle, [] => needle.isEmpty
  | needle, c :: t => listStartsWith needle (c :: t) || pyIn needle t

/-- Python whitespace (`str.strip()` default set and the regex class `\s`),
on the ASCII range used by the engine. -/
def isPySpace (c : Char) : Bool :=
  c == ' ' || c == '\t' || c == '\n' || c == '\x0B' || c == '\x0C' || c == '\r'

/-- Python `str.strip()` on a character list. -/
def pyStrip (l : List Char) : List Char :=
  ((l.dropWhile isPySpace).reverse.dropWhile isPySpace).reverse

/-- Python `str.strip()` on a `String`. -/
def pyStripS (s : String) : String := ⟨pyStrip s.data⟩

/-! ## Data model (`models.py`) -/

/-- A `Vendor` row: the columns read by the engine
(`vendor_id`, `name`, `category`). -/
structure Vendor where
  vendor_id : String
  name : String
  category : String
deriving DecidableEq

/-- A `GoodsReceipt` row: `receipt_number`, `received_date`, `amount`
(value of goods received). -/
structure GoodsReceipt where
  receipt_number : String
  received_date : String
  amount : ℚ
deriving DecidableEq

/-- A `PurchaseOrder` row with its relationships: `po_number`,
`expected_amount`, `tolerance` (fraction, default 0.1 in the schema),
`status` (stored but never read by the matcher), the linked `vendor`
(nullable foreign key, hence `Option`) and the linked `receipts`. -/
structure PurchaseOrder where
  po_number : String
  expected_amount : ℚ
  tolerance : ℚ
  status : String
  vendor : Option Vendor
  receipts : List GoodsReceipt
deriving DecidableEq

/-- The entity store: the vendor and purchase-order tables, in their natural
(insertion) order; SQLAlchemy `.first()` is modelled by `List.find?`. -/
structure Store where
  vendors : List Vendor
  pos : List PurchaseOrder
deriving DecidableEq

/-! ## Vendor resolver (`validate_vendor`, `invoice_agent.py` lines 49-87) -/

/-- Result dictionary of `validate_vendor`. -/
structure VendorResult where
  valid : Bool
  vendor_id : Option String
  category : Option String
  message : String
deriving DecidableEq

/-- Core of `validate_vendor`, after the envelope unwrap: trim, then
case-insensitive exact match (`ilike` with no wildcard characters), then
bidirectional substring containment over all vendors in table order. -/
def validate_vendor_str (store : Store) (vendor_name : String) : VendorResult :=
  let vendor_clean := pyStripS vendor_name
  match store.vendors.find?
      (fun v => decide (lowerL v.name.data = lowerL vendor_clean.data)) with
  | some vendor =>
    { valid := true, vendor_id := some vendor.vendor_id,
      category := some vendor.category,
      message := "Vendor '" ++ vendor_name ++ "' found in database" }
  | none =>
    match store.vendors.find? (fun v =>
        pyIn (lowerL v.name.data) (lowerL vendor_clean.data)
          || pyIn (lowerL vendor_clean.data) (lowerL v.name.data)) with
    | some v =>
      { valid := true, vendor_id := some v.vendor_id, category := some v.category,
        message := "Vendor '" ++ vendor_name ++ "' matched to '" ++ v.name
          ++ "' in database (fuzzy match)" }
    | none =>
      { valid := false, vendor_id := none, category := none,
        message := "Vendor '" ++ vendor_name ++ "' NOT found in database" }

/-- An extraction envelope `\x7b value, confidence \x7d` as produced upstream. -/
structure Envelope where
  value : String
  confidence : ℚ
deriving DecidableEq

/-- A vendor-name argument as received at runtime: either a plain string or an
extraction envelope (dynamic typing in the source). -/
inductive VendorField where
  | raw (s : String)
  | env (e : Envelope)
deriving DecidableEq

/-- Python `str(...)` of the envelope dict (used only when `value` is falsy). -/
def envelopeStr (e : Envelope) : String :=
  "\x7b'value': '" ++ e.value ++ "', 'confidence': " ++ toString e.confidence ++ "\x7d"

/-- The unwrap at the top of `validate_vendor` (lines 51-52):
`vendor_name.get("value") or vendor_name.get("name") or str(vendor_name)`;
the envelope has no `name` key, so a falsy (empty) `value` falls through to
`str(vendor_name)`. -/
def unwrapVendorField : VendorField → String
  | .raw s => s
  | .env e => if e.value = "" then envelopeStr e else e.value

/-- `validate_vendor` (lines 49-87): unwrap the envelope if present, then run
the exact/fuzzy lookup. -/
def validate_vendor (store : Store) (vendor_name : VendorField) : VendorResult :=
  validate_vendor_str store (unwrapVendorField vendor_name)

/-! ## PO matcher (`perform_3_way_match`, `invoice_agent.py` lines 90-192) -/

/-- Value of the `3_way_match` result key: a boolean, or the string
`"skipped"` when the PO has no receipts. -/
inductive ThreeWayField where
  | result (b : Bool)
  | skipped
deriving DecidableEq

/-- Result dictionary of `perform_3_way_match`.  Keys absent from a given
return path are `none` (`two_way_match` and `three_way_match` stand for the
dict keys `2_way_match` and `3_way_match`, which cannot be Lean names). -/
structure POMatchResult where
  valid : Bool
  message : String
  po_found : Bool
  match_type : Option String
  vendor_match : Option Bool
  expected_po_amount : Option ℚ
  total_goods_received : Option ℚ
  has_receipts : Option Bool
  two_way_match : Option Bool
  three_way_match : Option ThreeWayField
deriving DecidableEq

/-- Return value for an empty PO number (lines 96-101). -/
def noPoResult : POMatchResult :=
  { valid := false, message := "No PO number provided", po_found := false,
    match_type := none, vendor_match := none, expected_po_amount := none,
    total_goods_received := none, has_receipts := none, two_way_match := none,
    three_way_match := none }

/-- Return value when the PO is not in the database (lines 109-114). -/
def poNotFoundResult (po_number : String) : POMatchResult :=
  { valid := false,
    message := "PO '" ++ po_number ++ "' not found in database",
    po_found := false,
    match_type := none, vendor_match := none, expected_po_amount := none,
    total_goods_received := none, has_receipts := none, two_way_match := none,
    three_way_match := none }

/-- PO lookup (line 107): case-insensitive exact match on the trimmed PO
number, first row wins. -/
def findPO (store : Store) (po_clean : String) : Option PurchaseOrder :=
  store.pos.find? (fun p => decide (lowerL p.po_number.data = lowerL po_clean.data))

/-- Vendor check of the matcher (lines 116-123): bidirectional case-insensitive
substring containment against the PO's linked vendor; `false` when the PO has
no linked vendor. -/
def vendorOk (po_obj : PurchaseOrder) (vendor_name : String) : Bool :=
  match po_obj.vendor with
  | some pv =>
      pyIn (lowerL pv.name.data) (lowerL vendor_name.data)
        || pyIn (lowerL vendor_name.data) (lowerL pv.name.data)
  | none => false

/-- Return value on vendor mismatch (lines 125-131). -/
def vendorMismatchResult (po_obj : PurchaseOrder) (vendor_str : String) : POMatchResult :=
  { valid := false,
    message := "Vendor mismatch: Invoice from '" ++ vendor_str
      ++ "' but PO is for '"
      ++ (match po_obj.vendor with | some pv => pv.name | none => "Unknown") ++ "'",
    po_found := true, match_type := some "failed_vendor",
    vendor_match := none, expected_po_amount := none,
    total_goods_received := none, has_receipts := none, two_way_match := none,
    three_way_match := none }

/-- The 2-way amount check (lines 133-140): `amount_check` stays true unless
the invoice amount is strictly below `expected - expected*tolerance` or
strictly above `expected + expected*tolerance`. -/
def amountCheck (po_obj : PurchaseOrder) (invoice_amount : ℚ) : Bool :=
  let expected := po_obj.expected_amount
  let tolerance_amount := expected * po_obj.tolerance
  !(decide (invoice_amount < expected - tolerance_amount)
      || decide (invoice_amount > expected + tolerance_amount))

/-- Sum of the goods-receipt amounts linked to the PO (line 144). -/
def totalReceived (po_obj : PurchaseOrder) : ℚ :=
  (po_obj.receipts.map GoodsReceipt.amount).sum

/-- `has_receipts = len(receipts) > 0` (line 146). -/
def hasReceipts (po_obj : PurchaseOrder) : Bool :=
  decide (po_obj.receipts.length > 0)

/-- The 3-way bound (line 152): invoice must not exceed
`total_received * (1 + tolerance)`. -/
def receiptMatchB (po_obj : PurchaseOrder) (invoice_amount : ℚ) : Bool :=
  decide (invoice_amount ≤ totalReceived po_obj * (1 + po_obj.tolerance))

/-- Lines 133-189 of `perform_3_way_match`: everything after the PO has been
found and the vendor check has passed (the result construction and the
four-way classification). -/
def matchBody (po_obj : PurchaseOrder) (invoice_amount : ℚ) : POMatchResult :=
  let expected := po_obj.expected_amount
  let total_received := totalReceived po_obj
  let has_receipts := hasReceipts po_obj
  let amount_check := amountCheck po_obj invoice_amount
  let receipt_match :=
    if has_receipts then receiptMatchB po_obj invoice_amount else false
  let base : POMatchResult :=
    { valid := false, message := "", po_found := true, match_type := none,
      vendor_match := some true, expected_po_amount := some expected,
      total_goods_received := some total_received,
      has_receipts := some has_receipts,
      two_way_match := some amount_check,
      three_way_match :=
        some (if has_receipts then ThreeWayField.result receipt_match
              else ThreeWayField.skipped) }
  if !amount_check then
    { base with
      valid := false,
      message := "2-Way Match Candidate Failed: Invoice $"
        ++ toString invoice_amount ++ " vs PO $" ++ toString expected,
      match_type := some "2_way_failure" }
  else if has_receipts && !receipt_match then
    { base with
      valid := false,
      message := "3-Way Match Failed: Invoice $" ++ toString invoice_amount
        ++ " exceeds Goods Received $" ++ toString total_received,
      match_type := some "3_way_failure" }
  else if !has_receipts then
    { base with
      valid := true,
      message := "2-Way Match Passed (Note: No Goods Receipts found for 3-way check)",
      match_type := some "2_way_success" }
  else
    { base with
      valid := true,
      message := "3-Way Match Successful! (Invoice matches PO and Goods Receipts)",
      match_type := some "3_way_success" }

/-- `perform_3_way_match` (lines 90-192) on a plain-string vendor name. -/
def perform_3_way_match (store : Store) (po_number vendor_name : String)
    (invoice_amount : ℚ) : POMatchResult :=
  if po_number = "" then noPoResult
  else
    match findPO store (pyStripS po_number) with
    | none => poNotFoundResult po_number
    | some po_obj =>
      if vendorOk po_obj vendor_name then matchBody po_obj invoice_amount
      else vendorMismatchResult po_obj vendor_name

/-- A Python exception escaping a function uncaught. -/
inductive PyError where
  | attributeError
  | zeroDivisionError
  | overflowError
deriving DecidableEq

/-- Equality of `Except` outcomes is decidable when both sides are. -/
instance exceptDecidableEq {ε α : Type} [DecidableEq ε] [DecidableEq α] :
    DecidableEq (Except ε α) := fun x y =>
  match x, y with
  | .error a, .error b =>
    if h : a = b then Decidable.isTrue (congrArg Except.error h)
    else Decidable.isFalse (fun hc => h (Except.error.inj hc))
  | .error _, .ok _ => Decidable.isFalse (fun hc => Except.noConfusion hc)
  | .ok _, .error _ => Decidable.isFalse (fun hc => Except.noConfusion hc)
  | .ok a, .ok b =>
    if h : a = b then Decidable.isTrue (congrArg Except.ok h)
    else Decidable.isFalse (fun hc => h (Except.ok.inj hc))

/-- `perform_3_way_match` as actually invoked at runtime, where the vendor
name may be a plain string or an extraction envelope.  The function performs
no unwrap: with an envelope, the empty-PO and PO-not-found paths return before
the vendor name is touched; once a PO with a linked vendor is reached, line
121 (`vendor_name.lower()`) raises `AttributeError` on the dict; if the PO has
no linked vendor, `vendor_match` stays false and the mismatch message
stringifies the dict. -/
def perform_3_way_match_field (store : Store) (po_number : String)
    (vendor_name : VendorField) (invoice_amount : ℚ) :
    Except PyError POMatchResult :=
  match vendor_name with
  | .raw s => .ok (perform_3_way_match store po_number s invoice_amount)
  | .env e =>
    if po_number = "" then .ok noPoResult
    else
      match findPO store (pyStripS po_number) with
      | none => .ok (poNotFoundResult po_number)
      | some po_obj =>
        match po_obj.vendor with
        | some _ => .error PyError.attributeError
        | none => .ok (vendorMismatchResult po_obj (envelopeStr e))

/-! ## Match classifier (abstraction of the terminal states, spec 4.4) -/

/-- The seven terminal states of the match classifier. -/
inductive MatchState where
  | no_po
  | po_not_found
  | vendor_mismatch
  | two_way_failure
  | three_way_failure
  | two_way_success
  | three_way_success
deriving DecidableEq

/-- Classification of the post-vendor-check branches, in the source's
evaluation order (lines 168-187). -/
def stateBody (po_obj : PurchaseOrder) (invoice_amount : ℚ) : MatchState :=
  let has_receipts := hasReceipts po_obj
  let receipt_match :=
    if has_receipts then receiptMatchB po_obj invoice_amount else false
  if !(amountCheck po_obj invoice_amount) then .two_way_failure
  else if has_receipts && !receipt_match then .three_way_failure
  else if !has_receipts then .two_way_success
  else .three_way_success

/-- The classifier over the full inputs, in the source's priority order. -/
def matchState (store : Store) (po_number vendor_name : String)
    (invoice_amount : ℚ) : MatchState :=
  if po_number = "" then .no_po
  else
    match findPO store (pyStripS po_number) with
    | none => .po_not_found
    | some po_obj =>
      if vendorOk po_obj vendor_name then stateBody po_obj invoice_amount
      else .vendor_mismatch

/-- The `match_type` dict key carried by each terminal state (absent for the
two PO-resolution failures). -/
def stateToMatchType : MatchState → Option String
  | .no_po => none
  | .po_not_found => none
  | .vendor_mismatch => some "failed_vendor"
  | .two_way_failure => some "2_way_failure"
  | .three_way_failure => some "3_way_failure"
  | .two_way_success => some "2_way_success"
  | .three_way_success => some "3_way_success"

/-- Which terminal states carry `valid = true`. -/
def stateValid : MatchState → Bool
  | .two_way_success => true
  | .three_way_success => true
  | _ => false

/-! ## Calendar dates

The optimizer uses `datetime.strptime(s, "%Y-%m-%d")`, `timedelta(days=n)` and
`strftime("%Y-%m-%d")`.  Dates are modelled as proleptic Gregorian calendar
triples with the standard civil-date / day-number conversion. -/

/-- A calendar date. -/
structure Date where
  year : Nat
  month : Nat
  day : Nat
deriving DecidableEq

/-- Gregorian leap-year test. -/
def isLeapYear (y : Nat) : Bool :=
  y % 4 == 0 && (y % 100 != 0 || y % 400 == 0)

/-- Number of days in a month. -/
def daysInMonth (y m : Nat) : Nat :=
  if m == 2 then (if isLeapYear y then 29 else 28)
  else if m == 4 || m == 6 || m == 9 || m == 11 then 30
  else 31

/-- Day count of a date, measured from 0000-03-01 of the proleptic Gregorian
calendar (valid for the dates with `year ≥ 1` produced by `parseDate`). -/
def dayNumberOfDate (d : Date) : Nat :=
  let y := if d.month ≤ 2 then d.year - 1 else d.year
  let era := y / 400
  let yoe := y % 400
  let mp := if 2 < d.month then d.month - 3 else d.month + 9
  let doy := (153 * mp + 2) / 5 + d.day - 1
  let doe := yoe * 365 + yoe / 4 - yoe / 100 + doy
  era * 146097 + doe

/-- Civil date of a day count (inverse of `dayNumberOfDate`). -/
def dateOfDayNumber (n : Nat) : Date :=
  let era := n / 146097
  let doe := n % 146097
  let yoe := (doe - doe / 1460 + doe / 36524 - doe / 146096) / 365
  let y := yoe + era * 400
  let doy := doe - (365 * yoe + yoe / 4 - yoe / 100)
  let mp := (5 * doy + 2) / 153
  let d := doy - (153 * mp + 2) / 5 + 1
  let m := if mp < 10 then mp + 3 else mp - 9
  if m ≤ 2 then { year := y + 1, month := m, day := d }
  else { year := y, month := m, day := d }

/-- Unchecked civil-date addition (the arithmetic behind `+ timedelta`). -/
def addDays (d : Date) (k : Nat) : Date :=
  dateOfDayNumber (dayNumberOfDate d + k)

/-- `timedelta` accepts at most 999999999 days. -/
def timedeltaMaxDays : Nat := 999999999

/-- Day number of `9999-12-31`, the largest date a CPython `datetime` can
hold. -/
def maxDayNumber : Nat := dayNumberOfDate { year := 9999, month := 12, day := 31 }

/-- `date + timedelta(days = k)` as CPython executes it: constructing the
`timedelta` raises `OverflowError` for day counts above 999999999, and the
addition raises `OverflowError` when the result passes `9999-12-31` (the
dates here are nonnegative offsets from a parsed date with `year ≥ 1`, so the
lower bound cannot be crossed). -/
def addDaysChecked (d : Date) (k : Nat) : Except PyError Date :=
  if timedeltaMaxDays < k then .error PyError.overflowError
  else if maxDayNumber < dayNumberOfDate d + k then .error PyError.overflowError
  else .ok (addDays d k)

/-- Zero-pad a number to two digits. -/
def pad2 (n : Nat) : String :=
  if n < 10 then "0" ++ toString n else toString n

/-- Zero-pad a number to four digits. -/
def pad4 (n : Nat) : String :=
  if n < 10 then "000" ++ toString n
  else if n < 100 then "00" ++ toString n
  else if n < 1000 then "0" ++ toString n
  else toString n

/-- `strftime("%Y-%m-%d")`. -/
def formatDate (d : Date) : String :=
  pad4 d.year ++ "-" ++ pad2 d.month ++ "-" ++ pad2 d.day

/-- Numeric value of a digit string. -/
def digitsToNat (l : List Char) : Nat :=
  l.foldl (fun n c => n * 10 + (c.toNat - 48)) 0

/-- Nonempty and all decimal digits. -/
def allDigits (l : List Char) : Bool :=
  !l.isEmpty && l.all Char.isDigit

/-- Python `s.split("-")` on a character list. -/
def splitDash : List Char → List (List Char)
  | [] => [[]]
  | '-' :: t => [] :: splitDash t
  | c :: t =>
    match splitDash t with
    | [] => [[c]]
    | h :: r => (c :: h) :: r

/-- Model of `datetime.strptime(s, "%Y-%m-%d")` (line 212): CPython compiles
the format to the pattern `year = exactly four digits`, `month`/`day` = one or
two digits with no leading `00`, anchored at both ends; the `datetime`
constructor then requires `1 ≤ year`, `1 ≤ month ≤ 12` and
`1 ≤ day ≤ daysInMonth`.  A two-digit component with a numeric value `≤ 9`
necessarily starts with `0`, so the digit-pattern constraint reduces to the
value ranges checked below. -/
def parseDate (s : String) : Option Date :=
  match splitDash s.data with
  | [ys, ms, ds] =>
    if allDigits ys && decide (ys.length = 4)
        && allDigits ms && decide (ms.length ≤ 2)
        && allDigits ds && decide (ds.length ≤ 2) then
      let y := digitsToNat ys
      let m := digitsToNat ms
      let d := digitsToNat ds
      if decide (1 ≤ y) && decide (1 ≤ m) && decide (m ≤ 12)
          && decide (1 ≤ d) && decide (d ≤ daysInMonth y m) then
        some { year := y, month := m, day := d }
      else none
    else none
  | _ => none

/-! ## Payment terms optimizer (`calculate_optimal_payment`, lines 207-282) -/

/-- Value of the decimal literal `intPart.fracPart` captured by the regex
group `(\d+(?:\.\d+)?)` (Python applies `float` to the captured text). -/
def decimalValue (intPart fracPart : List Char) : ℚ :=
  (digitsToNat intPart : ℚ) + (digitsToNat fracPart : ℚ) / ((10 : ℚ) ^ fracPart.length)

/-- Attempt to match the discount-net regex
`(\d+(?:\.\d+)?)%?\/(\d+)\s*,?\s*net\s*(\d+)` (line 231) at the start of
`cs`, returning the captured text of the three groups on success (group 1 as
its integer and fractional digit runs).  Every quantifier in this pattern is
forced: shrinking a greedy `\d+`/`\s*` or flipping an optional element always
leaves a character that the following literal cannot match, so the regex
engine's backtracking search is equivalent to this deterministic scan. -/
def matchPat1At (cs : List Char) : Option (List Char × List Char × Nat × Nat) :=
  let (ds, r1) := cs.span Char.isDigit
  if ds.isEmpty then none
  else
    let fr : List Char × List Char :=
      match r1 with
      | '.' :: t =>
        let (fs, rr) := t.span Char.isDigit
        if fs.isEmpty then ([], r1) else (fs, rr)
      | _ => ([], r1)
    let r3 : List Char :=
      match fr.2 with
      | '%' :: t => t
      | r2 => r2
    match r3 with
    | '/' :: t =>
      let (d2, r4) := t.span Char.isDigit
      if d2.isEmpty then none
      else
        let r5 := r4.dropWhile isPySpace
        let r6 : List Char :=
          match r5 with
          | ',' :: t2 => t2
          | r5' => r5'
        let r7 := r6.dropWhile isPySpace
        match r7 with
        | 'n' :: 'e' :: 't' :: t3 =>
          let r8 := t3.dropWhile isPySpace
          let (d3, _) := r8.span Char.isDigit
          if d3.isEmpty then none
          else some (ds, fr.1, digitsToNat d2, digitsToNat d3)
        | _ => none
    | _ => none

/-- `re.search` of the discount-net pattern: try every start position, left to
right. -/
def searchPat1 : List Char → Option (List Char × List Char × Nat × Nat)
  | [] => none
  | c :: rest =>
    match matchPat1At (c :: rest) with
    | some g => some g
    | none => searchPat1 rest

/-- Attempt to match the plain-net regex `net\s*(\d+)` (line 266) at the start
of `cs`. -/
def matchPat2At : List Char → Option Nat
  | 'n' :: 'e' :: 't' :: t =>
    let r := t.dropWhile isPySpace
    let (ds, _) := r.span Char.isDigit
    if ds.isEmpty then none else some (digitsToNat ds)
  | _ => none

/-- `re.search` of the plain-net pattern. -/
def searchPat2 : List Char → Option Nat
  | [] => none
  | c :: rest =>
    match matchPat2At (c :: rest) with
    | some g => some g
    | none => searchPat2 rest

/-- The fixed hurdle rate of line 249. -/
def hurdle_rate : ℚ := 1 / 10

/-- Result dictionary of `calculate_optimal_payment` on the success path. -/
structure PaymentPlan where
  payment_terms : String
  invoice_date : String
  due_date : Option String
  discount_date : Option String
  optimal_payment_date : Option String
  potential_savings : ℚ
  reasoning : String
deriving DecidableEq

/-- Full result of `calculate_optimal_payment`: either the error dictionary
(unparseable invoice date) or a payment plan. -/
inductive PaymentResult where
  | error (msg : String)
  | plan (p : PaymentPlan)
deriving DecidableEq

/-- `calculate_optimal_payment` (lines 207-282), including its uncaught
exception paths: the `try` at lines 211-216 wraps only `strptime`, so a
`ZeroDivisionError` from `discount_percent / (1 - discount_percent)` at line
246 (discount fraction exactly 1, e.g. terms `100/10 net 30`) and an
`OverflowError` from `timedelta` construction or date addition (lines
238-239, 269, 277) escape the function.  The result is therefore an
`Except`: `.ok` carries the returned dictionary (the structured date error or
a plan), `.error` an escaped exception.  The source's trailing
`if not result["due_date"]` fallback fires exactly on the paths where neither
pattern populated a due date (the discount-net branch always sets it before
returning), so the fallback is inlined on those two paths here.  Numeric
interpolations in the reasoning strings are rendered with `toString` over `ℚ`
in place of Python's float formatting; no claim depends on those
renderings. -/
def calculate_optimal_payment (terms invoice_date_str : String) (amount : ℚ) :
    Except PyError PaymentResult :=
  match parseDate invoice_date_str with
  | none => .ok (.error "Invalid date format. Use YYYY-MM-DD")
  | some inv_date =>
    let termsL := pyStripS (strLower terms)
    let result0 : PaymentPlan :=
      { payment_terms := termsL, invoice_date := invoice_date_str,
        due_date := none, discount_date := none, optimal_payment_date := none,
        potential_savings := 0, reasoning := "Standard Net Terms" }
    match searchPat1 termsL.data with
    | some (g1i, g1f, discount_days, net_days) =>
      let discount_percent := decimalValue g1i g1f / 100
      match addDaysChecked inv_date discount_days with
      | .error e => .error e
      | .ok discount_date =>
        match addDaysChecked inv_date net_days with
        | .error e => .error e
        | .ok due_date =>
          let savings := amount * discount_percent
          let rE : Except PyError PaymentPlan :=
            if discount_days < net_days then
              if (1 : ℚ) - discount_percent = 0 then
                .error PyError.zeroDivisionError
              else
                let apr := (discount_percent / (1 - discount_percent))
                  * ((365 : ℚ) / ((net_days - discount_days : Nat) : ℚ))
                if hurdle_rate < apr then
                  .ok { result0 with
                    optimal_payment_date := some (formatDate discount_date),
                    potential_savings := savings,
                    reasoning := "Pay early to capture "
                      ++ toString (discount_percent * 100) ++ "% discount. APR "
                      ++ toString (apr * 100) ++ "% > 10% Hurdle." }
                else
                  .ok { result0 with
                    optimal_payment_date := some (formatDate due_date),
                    reasoning := "Pay on due date. Discount APR "
                      ++ toString (apr * 100) ++ "% is below hurdle rate." }
            else
              .ok { result0 with
                optimal_payment_date := some (formatDate due_date) }
          match rE with
          | .error e => .error e
          | .ok r =>
            .ok (.plan { r with
              due_date := some (formatDate due_date),
              discount_date := some (formatDate discount_date) })
    | none =>
      if pyIn ['n', 'e', 't'] termsL.data then
        match searchPat2 termsL.data with
        | some days =>
          match addDaysChecked inv_date days with
          | .error e => .error e
          | .ok due_date =>
            .ok (.plan { result0 with
              due_date := some (formatDate due_date),
              optimal_payment_date := some (formatDate due_date),
              reasoning := "Standard Net " ++ toString days
                ++ " terms. Pay on due date." })
        | none =>
          match addDaysChecked inv_date 30 with
          | .error e => .error e
          | .ok due_date =>
            .ok (.plan { result0 with
              due_date := some (formatDate due_date),
              optimal_payment_date := some (formatDate due_date),
              reasoning := "Could not parse terms, defaulting to Net 30" })
      else
        match addDaysChecked inv_date 30 with
        | .error e => .error e
        | .ok due_date =>
          .ok (.plan { result0 with
            due_date := some (formatDate due_date),
            optimal_payment_date := some (formatDate due_date),
            reasoning := "Could not parse terms, defaulting to Net 30" })

/-- `due_date` of a call outcome (`none` on the structured-error and
exception paths). -/
def planDueDate : Except PyError PaymentResult → Option String
  | .ok (.plan p) => p.due_date
  | _ => none

/-- `discount_date` of a call outcome. -/
def planDiscountDate : Except PyError PaymentResult → Option String
  | .ok (.plan p) => p.discount_date
  | _ => none

/-- `optimal_payment_date` of a call outcome. -/
def planOptimalDate : Except PyError PaymentResult → Option String
  | .ok (.plan p) => p.optimal_payment_date
  | _ => none

/-- `potential_savings` of a call outcome. -/
def planSavings : Except PyError PaymentResult → ℚ
  | .ok (.plan p) => p.potential_savings
  | _ => 0

/-- Did the call return the structured error dictionary (as opposed to a plan
or an escaped exception)? -/
def isErrorResult : Except PyError PaymentResult → Bool
  | .ok (.error _) => true
  | _ => false

/-! ## Concrete records used to instantiate the theorems -/

/-- A sample vendor row. -/
def acme : Vendor :=
  { vendor_id := "V001", name := "Acme Corp", category := "Supplies" }

/-- A sample purchase order with one goods receipt. -/
def poOne : PurchaseOrder :=
  { po_number := "PO-1", expected_amount := 100, tolerance := 1 / 10,
    status := "active", vendor := some acme,
    receipts := [{ receipt_number := "GR-1", received_date := "2024-01-02",
                   amount := 120 }] }

/-- A sample purchase order with no goods receipts. -/
def poTwo : PurchaseOrder :=
  { po_number := "PO-2", expected_amount := 100, tolerance := 1 / 10,
    status := "active", vendor := some acme, receipts := [] }

/-- A sample entity store. -/
def demoStore : Store := { vendors := [acme], pos := [poOne, poTwo] }

/-! ## Helper lemmas about the PO matcher -/

/-- After the PO resolves and the vendor check passes, `perform_3_way_match`
returns the body result. -/
theorem perform_eq_matchBody (store : Store) (p v : String) (A : ℚ)
    (po_obj : PurchaseOrder) (hp : p ≠ "")
    (hfind : findPO store (pyStripS p) = some po_obj)
    (hv : vendorOk po_obj v = true) :
    perform_3_way_match store p v A = matchBody po_obj A := by
  simp [perform_3_way_match, hp, hfind, hv]

/-- The `2_way_match` key always reports `amountCheck`. -/
theorem matchBody_two_way (po_obj : PurchaseOrder) (A : ℚ) :
    (matchBody po_obj A).two_way_match = some (amountCheck po_obj A) := by
  unfold matchBody
  dsimp only
  split_ifs <;> rfl

/-- The `match_type` key of the body agrees with the abstract classifier. -/
theorem matchBody_match_type (po_obj : PurchaseOrder) (A : ℚ) :
    (matchBody po_obj A).match_type = stateToMatchType (stateBody po_obj A) := by
  unfold matchBody stateBody
  dsimp only
  split_ifs <;> rfl

/-- The `valid` key of the body agrees with the abstract classifier. -/
theorem matchBody_valid (po_obj : PurchaseOrder) (A : ℚ) :
    (matchBody po_obj A).valid = stateValid (stateBody po_obj A) := by
  unfold matchBody stateBody
  dsimp only
  split_ifs <;> rfl

/-- The 2-way flag holds exactly on the closed tolerance band. -/
theorem amountCheck_iff (po_obj : PurchaseOrder) (A : ℚ) :
    amountCheck po_obj A = true ↔
      (po_obj.expected_amount * (1 - po_obj.tolerance) ≤ A
        ∧ A ≤ po_obj.expected_amount * (1 + po_obj.tolerance)) := by
  have h1 : po_obj.expected_amount * (1 - po_obj.tolerance)
      = po_obj.expected_amount - po_obj.expected_amount * po_obj.tolerance := by
    ring
  have h2 : po_obj.expected_amount * (1 + po_obj.tolerance)
      = po_obj.expected_amount + po_obj.expected_amount * po_obj.tolerance := by
    ring
  rw [h1, h2]
  simp only [amountCheck, Bool.not_eq_true', Bool.or_eq_false_iff,
    decide_eq_false_iff_not, not_lt, gt_iff_lt]

/-- An amount strictly outside the tolerance band fails the 2-way flag. -/
theorem amountCheck_eq_false (po_obj : PurchaseOrder) (A : ℚ)
    (h : A < po_obj.expected_amount * (1 - po_obj.tolerance)
      ∨ po_obj.expected_amount * (1 + po_obj.tolerance) < A) :
    amountCheck po_obj A = false := by
  cases hb : amountCheck po_obj A with
  | false => rfl
  | true =>
    exfalso
    have hc := (amountCheck_iff po_obj A).mp hb
    rcases h with h | h
    · linarith [hc.1]
    · linarith [hc.2]

/-- The 3-way flag holds exactly on the one-sided bound. -/
theorem receiptMatchB_iff (po_obj : PurchaseOrder) (A : ℚ) :
    receiptMatchB po_obj A = true ↔
      A ≤ totalReceived po_obj * (1 + po_obj.tolerance) := by
  simp [receiptMatchB]

/-- A nonempty receipt list sets the `has_receipts` flag. -/
theorem hasReceipts_of_ne (po_obj : PurchaseOrder) (hr : po_obj.receipts ≠ []) :
    hasReceipts po_obj = true := by
  simp [hasReceipts, List.length_pos, hr]

/-- The body classifier never yields a PO-resolution state. -/
theorem stateBody_ne_resolution (po_obj : PurchaseOrder) (A : ℚ) :
    stateBody po_obj A ≠ MatchState.no_po
      ∧ stateBody po_obj A ≠ MatchState.po_not_found
      ∧ stateBody po_obj A ≠ MatchState.vendor_mismatch := by
  unfold stateBody
  dsimp only
  split_ifs <;> simp

/-- `valid` is true exactly on the two success states. -/
theorem stateValid_iff (s : MatchState) :
    stateValid s = true
      ↔ (s = MatchState.two_way_success ∨ s = MatchState.three_way_success) := by
  cases s <;> simp [stateValid]

/-! ## Claim theorems -/

/-- C1: for every purchase order with expected amount `E` and tolerance `T`,
and every invoice amount `A` (after the PO is found and the vendor check
passes), `match_po` reports the amount as in-tolerance iff
`E*(1-T) ≤ A ≤ E*(1+T)`, with both boundaries inclusive. -/
theorem c1_two_way_tolerance_inclusive (store : Store) (p v : String) (A : ℚ)
    (po_obj : PurchaseOrder) (hp : p ≠ "")
    (hfind : findPO store (pyStripS p) = some po_obj)
    (hv : vendorOk po_obj v = true) :
    (perform_3_way_match store p v A).two_way_match = some true
      ↔ (po_obj.expected_amount * (1 - po_obj.tolerance) ≤ A
          ∧ A ≤ po_obj.expected_amount * (1 + po_obj.tolerance)) := by
  rw [perform_eq_matchBody store p v A po_obj hp hfind hv, matchBody_two_way,
    Option.some_inj]
  exact amountCheck_iff po_obj A

/-- Witness for C1 at the lower boundary `A = E*(1-T)` exactly:
`E = 100`, `T = 0.1`, `A = 90` is reported in-tolerance. -/
theorem c1_two_way_tolerance_inclusive_witness :
    (perform_3_way_match demoStore "PO-1" "Acme" 90).two_way_match = some true :=
  (c1_two_way_tolerance_inclusive demoStore "PO-1" "Acme" 90 poOne
    (by decide) rfl rfl).mpr (by constructor <;> norm_num [poOne])

/-- C2: with at least one goods receipt (amounts summing to `R`) and the
vendor and 2-way checks passed, the 3-way match passes iff `A ≤ R*(1+T)`;
the bound is one-sided, so (with nonnegative tolerance and receipts) any
`A ≤ R` passes, and `A > R*(1+T)` yields `valid = false` with match type
`3_way_failure`. -/
theorem c2_three_way_one_sided (store : Store) (p v : String) (A : ℚ)
    (po_obj : PurchaseOrder) (hp : p ≠ "")
    (hfind : findPO store (pyStripS p) = some po_obj)
    (hv : vendorOk po_obj v = true)
    (hr : po_obj.receipts ≠ [])
    (ha : amountCheck po_obj A = true) :
    (((perform_3_way_match store p v A).valid = true
        ∧ (perform_3_way_match store p v A).match_type = some "3_way_success")
      ↔ A ≤ totalReceived po_obj * (1 + po_obj.tolerance))
    ∧ (0 ≤ po_obj.tolerance → 0 ≤ totalReceived po_obj →
        A ≤ totalReceived po_obj →
        (perform_3_way_match store p v A).valid = true)
    ∧ (totalReceived po_obj * (1 + po_obj.tolerance) < A →
        (perform_3_way_match store p v A).valid = false
          ∧ (perform_3_way_match store p v A).match_type = some "3_way_failure") := by
  have hhr := hasReceipts_of_ne po_obj hr
  rw [perform_eq_matchBody store p v A po_obj hp hfind hv]
  have hmain : ((matchBody po_obj A).valid = true
        ∧ (matchBody po_obj A).match_type = some "3_way_success")
      ↔ A ≤ totalReceived po_obj * (1 + po_obj.tolerance) := by
    cases hm : receiptMatchB po_obj A with
    | true =>
      have hb := (receiptMatchB_iff po_obj A).mp hm
      unfold matchBody
      dsimp only
      rw [hhr, ha, hm]
      simpa using hb
    | false =>
      have hb : ¬ A ≤ totalReceived po_obj * (1 + po_obj.tolerance) := by
        intro hle
        rw [(receiptMatchB_iff po_obj A).mpr hle] at hm
        exact Bool.true_eq_false.mp hm
      unfold matchBody
      dsimp only
      rw [hhr, ha, hm]
      simpa using hb
  refine ⟨hmain, ?_, ?_⟩
  · intro hT hR hA
    have hle : A ≤ totalReceived po_obj * (1 + po_obj.tolerance) := by
      nlinarith
    exact (hmain.mpr hle).1
  · intro hgt
    have hm : receiptMatchB po_obj A = false := by
      cases hm : receiptMatchB po_obj A with
      | false => rfl
      | true =>
        exfalso
        have := (receiptMatchB_iff po_obj A).mp hm
        linarith
    unfold matchBody
    dsimp only
    rw [hhr, ha, hm]
    exact ⟨rfl, rfl⟩

/-- Witness for C2: `PO-1` has one receipt of `120`, tolerance `0.1`; the
invoice of `100` passes both checks (`100 ≤ 120` and `100 ≤ 132`). -/
theorem c2_three_way_one_sided_witness :
    (perform_3_way_match demoStore "PO-1" "Acme" 100).valid = true :=
  (c2_three_way_one_sided demoStore "PO-1" "Acme" 100 poOne
    (by decide) rfl rfl (by decide)
    (by rw [amountCheck_iff]; constructor <;> norm_num [poOne])).2.1
    (by norm_num [poOne]) (by norm_num [totalReceived, poOne])
    (by norm_num [totalReceived, poOne])

/-- C3: for a purchase order with zero linked goods receipts (after the vendor
check and the 2-way amount check pass), `match_po` skips the 3-way check
rather than failing it: `has_receipts = false`, `3_way_match = "skipped"`,
match type `2_way_success`, `valid = true`. -/
theorem c3_no_receipts_skipped (store : Store) (p v : String) (A : ℚ)
    (po_obj : PurchaseOrder) (hp : p ≠ "")
    (hfind : findPO store (pyStripS p) = some po_obj)
    (hv : vendorOk po_obj v = true)
    (hr : po_obj.receipts = [])
    (ha : amountCheck po_obj A = true) :
    (perform_3_way_match store p v A).has_receipts = some false
      ∧ (perform_3_way_match store p v A).three_way_match
          = some ThreeWayField.skipped
      ∧ (perform_3_way_match store p v A).match_type = some "2_way_success"
      ∧ (perform_3_way_match store p v A).valid = true := by
  have hhr : hasReceipts po_obj = false := by
    simp [hasReceipts, hr]
  rw [perform_eq_matchBody store p v A po_obj hp hfind hv]
  unfold matchBody
  dsimp only
  rw [hhr, ha]
  exact ⟨rfl, rfl, rfl, rfl⟩

/-- Witness for C3: `PO-2` has no receipts; an in-tolerance invoice of `110`
is accepted as `2_way_success`. -/
theorem c3_no_receipts_skipped_witness :
    (perform_3_way_match demoStore "PO-2" "acme corp" 110).valid = true :=
  (c3_no_receipts_skipped demoStore "PO-2" "acme corp" 110 poTwo
    (by decide) rfl rfl rfl
    (by rw [amountCheck_iff]; constructor <;> norm_num [poTwo])).2.2.2

/-- C4: the match classifier yields exactly one of the seven terminal states
(the total function `matchState`, defined in the source's evaluation order):
the result's `match_type` key agrees with the state, `valid` is true iff the
state is `2_way_success` or `3_way_success`, `no_po` occurs exactly on an
empty PO number, and when the amount is both outside the PO tolerance band
and above the receipt bound, `2_way_failure` wins. -/
theorem c4_classifier_states (store : Store) (p v : String) (A : ℚ) :
    (perform_3_way_match store p v A).match_type
        = stateToMatchType (matchState store p v A)
    ∧ ((perform_3_way_match store p v A).valid = true
        ↔ (matchState store p v A = MatchState.two_way_success
            ∨ matchState store p v A = MatchState.three_way_success))
    ∧ (matchState store p v A = MatchState.no_po ↔ p = "")
    ∧ (∀ po_obj : PurchaseOrder, p ≠ "" →
        findPO store (pyStripS p) = some po_obj →
        vendorOk po_obj v = true →
        (A < po_obj.expected_amount * (1 - po_obj.tolerance)
          ∨ po_obj.expected_amount * (1 + po_obj.tolerance) < A) →
        totalReceived po_obj * (1 + po_obj.tolerance) < A →
        matchState store p v A = MatchState.two_way_failure) := by
  by_cases hp : p = ""
  · subst hp
    refine ⟨rfl, by simp [perform_3_way_match, matchState, noPoResult], ?_, ?_⟩
    · simp [matchState]
    · intro po_obj hne
      exact absurd rfl hne
  · cases hfind : findPO store (pyStripS p) with
    | none =>
      have hperf : perform_3_way_match store p v A = poNotFoundResult p := by
        simp [perform_3_way_match, hp, hfind]
      have hstate : matchState store p v A = MatchState.po_not_found := by
        simp [matchState, hp, hfind]
      rw [hperf, hstate]
      refine ⟨rfl, by simp [poNotFoundResult], by simp [hp], ?_⟩
      intro po_obj _ hfind' _ _ _
      exact absurd hfind' (by simp)
    | some po_obj =>
      cases hv : vendorOk po_obj v with
      | false =>
        have hperf : perform_3_way_match store p v A
            = vendorMismatchResult po_obj v := by
          simp [perform_3_way_match, hp, hfind, hv]
        have hstate : matchState store p v A = MatchState.vendor_mismatch := by
          simp [matchState, hp, hfind, hv]
        rw [hperf, hstate]
        refine ⟨rfl, by simp [vendorMismatchResult], by simp [hp], ?_⟩
        intro po_obj' _ hfind' hv' _ _
        cases Option.some.inj hfind'
        rw [hv] at hv'
        exact absurd hv' (by simp)
      | true =>
        have hperf := perform_eq_matchBody store p v A po_obj hp hfind hv
        have hstate : matchState store p v A = stateBody po_obj A := by
          simp [matchState, hp, hfind, hv]
        rw [hperf, hstate]
        refine ⟨matchBody_match_type po_obj A, ?_, ?_, ?_⟩
        · rw [matchBody_valid po_obj A]
          exact stateValid_iff (stateBody po_obj A)
        · simp [hp, (stateBody_ne_resolution po_obj A).1]
        · intro po_obj' _ hfind' _ hout _
          cases Option.some.inj hfind'
          have hac := amountCheck_eq_false po_obj A hout
          unfold stateBody
          dsimp only
          rw [hac]
          rfl

/-- The empty needle is a substring of everything (Python `"" in s`). -/
theorem pyIn_nil (l : List Char) : pyIn [] l = true := by
  cases l <;> rfl

/-- A string with an empty character list is the empty string. -/
theorem string_eq_empty_of_data (s : String) (h : s.data = []) : s = "" := by
  cases s
  subst h
  rfl

/-- C10: the bidirectional containment test degenerates on the empty string.
For every store with at least one vendor (all with nonempty names),
`resolve_vendor` of an empty or whitespace-only name returns `valid = true` as
a fuzzy match to the first stored vendor, and the vendor check of `match_po`
passes for an empty invoice vendor name against any PO with a linked
vendor. -/
theorem c10_empty_string_degenerate (store : Store) (v0 : Vendor)
    (rest : List Vendor) (hs : store.vendors = v0 :: rest)
    (hne : ∀ v ∈ store.vendors, v.name ≠ "")
    (name : String) (hblank : pyStripS name = "") :
    validate_vendor store (VendorField.raw name) =
      { valid := true, vendor_id := some v0.vendor_id,
        category := some v0.category,
        message := "Vendor '" ++ name ++ "' matched to '" ++ v0.name
          ++ "' in database (fuzzy match)" }
    ∧ (∀ (po_obj : PurchaseOrder) (pv : Vendor), po_obj.vendor = some pv →
        vendorOk po_obj "" = true) := by
  constructor
  · show validate_vendor_str store name = _
    unfold validate_vendor_str
    rw [hblank]
    dsimp only
    have hnone : store.vendors.find?
        (fun v => decide (lowerL v.name.data = lowerL ("" : String).data)) = none := by
      rw [List.find?_eq_none]
      intro v hv
      simp only [decide_eq_true_eq]
      intro hc
      have hdata : v.name.data = [] := by
        simpa [lowerL] using hc
      exact hne v hv (string_eq_empty_of_data v.name hdata)
    rw [hnone, hs]
    rw [List.find?_cons_of_pos]
    simp [pyIn_nil, lowerL]
  · intro po_obj pv hpv
    simp [vendorOk, hpv, pyIn_nil, lowerL]

/-- Witness for C10 at the concrete store: the whitespace-only name matches
`Acme Corp` and the empty name passes `PO-1`'s vendor check. -/
theorem c10_empty_string_degenerate_witness :
    (validate_vendor demoStore (VendorField.raw "  ")).valid = true
      ∧ vendorOk poOne "" = true := by
  have h := c10_empty_string_degenerate demoStore acme [] rfl
    (by intro v hv; simp [demoStore] at hv; subst hv; simp [acme])
    "  " rfl
  constructor
  · rw [h.1]
  · exact h.2 poOne acme rfl

/-- C8 concerns the envelope form of the vendor-name argument.  The spec
requires `match_po` to unwrap a `\x7b value, confidence \x7d` envelope as
`resolve_vendor` does, but the source performs no unwrap: once `PO-1`
resolves and has a linked vendor, line 121 (`vendor_name.lower()`) raises
`AttributeError` on the dict, while the same call with the unwrapped plain
string succeeds; `validate_vendor` accepts both forms identically. -/
theorem c8_envelope_not_unwrapped :
    perform_3_way_match_field demoStore "PO-1"
        (VendorField.env { value := "Acme Corp", confidence := 9 / 10 }) 100
      = Except.error PyError.attributeError
    ∧ perform_3_way_match_field demoStore "PO-1"
        (VendorField.raw "Acme Corp") 100
      = Except.ok (perform_3_way_match demoStore "PO-1" "Acme Corp" 100)
    ∧ validate_vendor demoStore
        (VendorField.env { value := "Acme Corp", confidence := 9 / 10 })
      = validate_vendor demoStore (VendorField.raw "Acme Corp") :=
  ⟨rfl, rfl, rfl⟩

/-- Witness for C4 at a concrete input exercising the priority clause:
`A = 200` is both above the PO band `[90, 110]` and above the receipt bound
`132`, and `2_way_failure` wins. -/
theorem c4_classifier_states_witness :
    (perform_3_way_match demoStore "PO-1" "Acme" 200).match_type
        = stateToMatchType (matchState demoStore "PO-1" "Acme" 200)
      ∧ matchState demoStore "PO-1" "Acme" 200 = MatchState.two_way_failure :=
  ⟨(c4_classifier_states demoStore "PO-1" "Acme" 200).1,
    (c4_classifier_states demoStore "PO-1" "Acme" 200).2.2.2 poOne
      (by decide) rfl rfl (Or.inr (by norm_num [poOne]))
      (by norm_num [totalReceived, poOne])⟩

/-! ## Helper lemmas about the payment optimizer: one evaluation lemma per
branch of `calculate_optimal_payment`, including the exception branches -/

/-- A failed checked date addition always carries `OverflowError`. -/
theorem addDaysChecked_error (d : Date) (k : Nat) (e : PyError)
    (h : addDaysChecked d k = Except.error e) : e = PyError.overflowError := by
  unfold addDaysChecked at h
  split_ifs at h <;> exact (Except.error.inj h).symm

/-- Discount-net branch, APR above the hurdle: pay on the discount date and
record the savings. -/
theorem calc_discount_taken (terms invoice_date_str : String) (amount : ℚ)
    (dt d1 d2 : Date) (g1i g1f : List Char) (dd nd : Nat)
    (hpd : parseDate invoice_date_str = some dt)
    (hs1 : searchPat1 (pyStripS (strLower terms)).data = some (g1i, g1f, dd, nd))
    (hd1 : addDaysChecked dt dd = Except.ok d1)
    (hd2 : addDaysChecked dt nd = Except.ok d2)
    (hlt : dd < nd)
    (hone : (1 : ℚ) - decimalValue g1i g1f / 100 ≠ 0)
    (hapr : hurdle_rate < decimalValue g1i g1f / 100
        / (1 - decimalValue g1i g1f / 100) * ((365 : ℚ) / ((nd - dd : Nat) : ℚ))) :
    calculate_optimal_payment terms invoice_date_str amount
      = Except.ok (PaymentResult.plan
      { payment_terms := pyStripS (strLower terms),
        invoice_date := invoice_date_str,
        due_date := some (formatDate d2),
        discount_date := some (formatDate d1),
        optimal_payment_date := some (formatDate d1),
        potential_savings := amount * (decimalValue g1i g1f / 100),
        reasoning := "Pay early to capture "
          ++ toString (decimalValue g1i g1f / 100 * 100) ++ "% discount. APR "
          ++ toString (decimalValue g1i g1f / 100 / (1 - decimalValue g1i g1f / 100)
              * ((365 : ℚ) / ((nd - dd : Nat) : ℚ)) * 100) ++ "% > 10% Hurdle." }) := by
  unfold calculate_optimal_payment
  rw [hpd]
  dsimp only
  rw [hs1]
  dsimp only
  rw [hd1]
  dsimp only
  rw [hd2]
  dsimp only
  rw [if_pos hlt, if_neg hone, if_pos hapr]

/-- Discount-net branch, APR at or below the hurdle: pay on the due date and
leave the savings at zero. -/
theorem calc_discount_below (terms invoice_date_str : String) (amount : ℚ)
    (dt d1 d2 : Date) (g1i g1f : List Char) (dd nd : Nat)
    (hpd : parseDate invoice_date_str = some dt)
    (hs1 : searchPat1 (pyStripS (strLower terms)).data = some (g1i, g1f, dd, nd))
    (hd1 : addDaysChecked dt dd = Except.ok d1)
    (hd2 : addDaysChecked dt nd = Except.ok d2)
    (hlt : dd < nd)
    (hone : (1 : ℚ) - decimalValue g1i g1f / 100 ≠ 0)
    (hapr : ¬ hurdle_rate < decimalValue g1i g1f / 100
        / (1 - decimalValue g1i g1f / 100) * ((365 : ℚ) / ((nd - dd : Nat) : ℚ))) :
    calculate_optimal_payment terms invoice_date_str amount
      = Except.ok (PaymentResult.plan
      { payment_terms := pyStripS (strLower terms),
        invoice_date := invoice_date_str,
        due_date := some (formatDate d2),
        discount_date := some (formatDate d1),
        optimal_payment_date := some (formatDate d2),
        potential_savings := 0,
        reasoning := "Pay on due date. Discount APR "
          ++ toString (decimalValue g1i g1f / 100 / (1 - decimalValue g1i g1f / 100)
              * ((365 : ℚ) / ((nd - dd : Nat) : ℚ)) * 100)
          ++ "% is below hurdle rate." }) := by
  unfold calculate_optimal_payment
  rw [hpd]
  dsimp only
  rw [hs1]
  dsimp only
  rw [hd1]
  dsimp only
  rw [hd2]
  dsimp only
  rw [if_pos hlt, if_neg hone, if_neg hapr]

/-- Discount-net branch, degenerate window (`net_days ≤ discount_days`): skip
the APR comparison, pay on the due date, savings stay zero. -/
theorem calc_discount_degenerate (terms invoice_date_str : String) (amount : ℚ)
    (dt d1 d2 : Date) (g1i g1f : List Char) (dd nd : Nat)
    (hpd : parseDate invoice_date_str = some dt)
    (hs1 : searchPat1 (pyStripS (strLower terms)).data = some (g1i, g1f, dd, nd))
    (hd1 : addDaysChecked dt dd = Except.ok d1)
    (hd2 : addDaysChecked dt nd = Except.ok d2)
    (hlt : ¬ dd < nd) :
    calculate_optimal_payment terms invoice_date_str amount
      = Except.ok (PaymentResult.plan
      { payment_terms := pyStripS (strLower terms),
        invoice_date := invoice_date_str,
        due_date := some (formatDate d2),
        discount_date := some (formatDate d1),
        optimal_payment_date := some (formatDate d2),
        potential_savings := 0,
        reasoning := "Standard Net Terms" }) := by
  unfold calculate_optimal_payment
  rw [hpd]
  dsimp only
  rw [hs1]
  dsimp only
  rw [hd1]
  dsimp only
  rw [hd2]
  dsimp only
  rw [if_neg hlt]

/-- Discount-net branch: overflow while computing the discount date (line
238) escapes. -/
theorem calc_discount_raises_first (terms invoice_date_str : String)
    (amount : ℚ) (dt : Date) (g1i g1f : List Char) (dd nd : Nat) (e : PyError)
    (hpd : parseDate invoice_date_str = some dt)
    (hs1 : searchPat1 (pyStripS (strLower terms)).data = some (g1i, g1f, dd, nd))
    (hd1 : addDaysChecked dt dd = Except.error e) :
    calculate_optimal_payment terms invoice_date_str amount = Except.error e := by
  unfold calculate_optimal_payment
  rw [hpd]
  dsimp only
  rw [hs1]
  dsimp only
  rw [hd1]

/-- Discount-net branch: overflow while computing the due date (line 239)
escapes. -/
theorem calc_discount_raises_second (terms invoice_date_str : String)
    (amount : ℚ) (dt d1 : Date) (g1i g1f : List Char) (dd nd : Nat) (e : PyError)
    (hpd : parseDate invoice_date_str = some dt)
    (hs1 : searchPat1 (pyStripS (strLower terms)).data = some (g1i, g1f, dd, nd))
    (hd1 : addDaysChecked dt dd = Except.ok d1)
    (hd2 : addDaysChecked dt nd = Except.error e) :
    calculate_optimal_payment terms invoice_date_str amount = Except.error e := by
  unfold calculate_optimal_payment
  rw [hpd]
  dsimp only
  rw [hs1]
  dsimp only
  rw [hd1]
  dsimp only
  rw [hd2]

/-- Discount-net branch: a discount fraction of exactly 1 makes line 246
divide by zero, and that `ZeroDivisionError` escapes. -/
theorem calc_discount_zero_division (terms invoice_date_str : String)
    (amount : ℚ) (dt d1 d2 : Date) (g1i g1f : List Char) (dd nd : Nat)
    (hpd : parseDate invoice_date_str = some dt)
    (hs1 : searchPat1 (pyStripS (strLower terms)).data = some (g1i, g1f, dd, nd))
    (hd1 : addDaysChecked dt dd = Except.ok d1)
    (hd2 : addDaysChecked dt nd = Except.ok d2)
    (hlt : dd < nd)
    (hone : (1 : ℚ) - decimalValue g1i g1f / 100 = 0) :
    calculate_optimal_payment terms invoice_date_str amount
      = Except.error PyError.zeroDivisionError := by
  unfold calculate_optimal_payment
  rw [hpd]
  dsimp only
  rw [hs1]
  dsimp only
  rw [hd1]
  dsimp only
  rw [hd2]
  dsimp only
  rw [if_pos hlt, if_pos hone]

/-- Plain-net branch: the discount-net pattern fails, `net` occurs, and the
plain-net pattern captures a day count within bounds. -/
theorem calc_plain_net (terms invoice_date_str : String) (amount : ℚ)
    (dt d2 : Date) (days : Nat)
    (hpd : parseDate invoice_date_str = some dt)
    (hs1 : searchPat1 (pyStripS (strLower terms)).data = none)
    (hnet : pyIn ['n', 'e', 't'] (pyStripS (strLower terms)).data = true)
    (hs2 : searchPat2 (pyStripS (strLower terms)).data = some days)
    (hdue : addDaysChecked dt days = Except.ok d2) :
    calculate_optimal_payment terms invoice_date_str amount
      = Except.ok (PaymentResult.plan
      { payment_terms := pyStripS (strLower terms),
        invoice_date := invoice_date_str,
        due_date := some (formatDate d2),
        discount_date := none,
        optimal_payment_date := some (formatDate d2),
        potential_savings := 0,
        reasoning := "Standard Net " ++ toString days
          ++ " terms. Pay on due date." }) := by
  unfold calculate_optimal_payment
  rw [hpd]
  dsimp only
  rw [hs1]
  dsimp only
  rw [if_pos hnet, hs2]
  dsimp only
  rw [hdue]

/-- Plain-net branch: an out-of-bounds day count makes the date addition at
line 269 raise, and the exception escapes. -/
theorem calc_plain_net_raises (terms invoice_date_str : String) (amount : ℚ)
    (dt : Date) (days : Nat) (e : PyError)
    (hpd : parseDate invoice_date_str = some dt)
    (hs1 : searchPat1 (pyStripS (strLower terms)).data = none)
    (hnet : pyIn ['n', 'e', 't'] (pyStripS (strLower terms)).data = true)
    (hs2 : searchPat2 (pyStripS (strLower terms)).data = some days)
    (hdue : addDaysChecked dt days = Except.error e) :
    calculate_optimal_payment terms invoice_date_str amount = Except.error e := by
  unfold calculate_optimal_payment
  rw [hpd]
  dsimp only
  rw [hs1]
  dsimp only
  rw [if_pos hnet, hs2]
  dsimp only
  rw [hdue]

/-- Fallback branch: no pattern populated a due date, so default to Net 30
with an unparseable-terms rationale. -/
theorem calc_fallback (terms invoice_date_str : String) (amount : ℚ)
    (dt d30 : Date)
    (hpd : parseDate invoice_date_str = some dt)
    (hs1 : searchPat1 (pyStripS (strLower terms)).data = none)
    (hrest : pyIn ['n', 'e', 't'] (pyStripS (strLower terms)).data = false
      ∨ searchPat2 (pyStripS (strLower terms)).data = none)
    (h30 : addDaysChecked dt 30 = Except.ok d30) :
    calculate_optimal_payment terms invoice_date_str amount
      = Except.ok (PaymentResult.plan
      { payment_terms := pyStripS (strLower terms),
        invoice_date := invoice_date_str,
        due_date := some (formatDate d30),
        discount_date := none,
        optimal_payment_date := some (formatDate d30),
        potential_savings := 0,
        reasoning := "Could not parse terms, defaulting to Net 30" }) := by
  unfold calculate_optimal_payment
  rw [hpd]
  dsimp only
  rw [hs1]
  dsimp only
  rcases hrest with hnet | hs2
  · have hcond : ¬ pyIn ['n', 'e', 't'] (pyStripS (strLower terms)).data = true := by
      rw [hnet]
      exact Bool.false_ne_true
    rw [if_neg hcond, h30]
  · by_cases hnet : pyIn ['n', 'e', 't'] (pyStripS (strLower terms)).data = true
    · rw [if_pos hnet, hs2]
      dsimp only
      rw [h30]
    · rw [if_neg hnet, h30]

/-- Fallback branch: the Net-30 default itself can overflow (line 277, an
invoice date within 30 days of 9999-12-31), and the exception escapes. -/
theorem calc_fallback_raises (terms invoice_date_str : String) (amount : ℚ)
    (dt : Date) (e : PyError)
    (hpd : parseDate invoice_date_str = some dt)
    (hs1 : searchPat1 (pyStripS (strLower terms)).data = none)
    (hrest : pyIn ['n', 'e', 't'] (pyStripS (strLower terms)).data = false
      ∨ searchPat2 (pyStripS (strLower terms)).data = none)
    (h30 : addDaysChecked dt 30 = Except.error e) :
    calculate_optimal_payment terms invoice_date_str amount = Except.error e := by
  unfold calculate_optimal_payment
  rw [hpd]
  dsimp only
  rw [hs1]
  dsimp only
  rcases hrest with hnet | hs2
  · have hcond : ¬ pyIn ['n', 'e', 't'] (pyStripS (strLower terms)).data = true := by
      rw [hnet]
      exact Bool.false_ne_true
    rw [if_neg hcond, h30]
  · by_cases hnet : pyIn ['n', 'e', 't'] (pyStripS (strLower terms)).data = true
    · rw [if_pos hnet, hs2]
      dsimp only
      rw [h30]
    · rw [if_neg hnet, h30]

/-- Once the invoice date parses, every run either escapes with a
`ZeroDivisionError` or `OverflowError`, or returns a plan whose `due_date`
and `optimal_payment_date` are populated. -/
theorem calc_result_shapes (terms invoice_date_str : String) (amount : ℚ)
    (dt : Date) (hpd : parseDate invoice_date_str = some dt) :
    (∃ e : PyError,
      calculate_optimal_payment terms invoice_date_str amount = Except.error e
        ∧ (e = PyError.zeroDivisionError ∨ e = PyError.overflowError))
    ∨ (∃ p : PaymentPlan,
        calculate_optimal_payment terms invoice_date_str amount
            = Except.ok (PaymentResult.plan p)
          ∧ p.due_date.isSome = true ∧ p.optimal_payment_date.isSome = true) := by
  rcases hs1 : searchPat1 (pyStripS (strLower terms)).data with _ | ⟨g1i, g1f, dd, nd⟩
  · by_cases hnet : pyIn ['n', 'e', 't'] (pyStripS (strLower terms)).data = true
    · rcases hs2 : searchPat2 (pyStripS (strLower terms)).data with _ | days
      · cases h30 : addDaysChecked dt 30 with
        | error e =>
          exact Or.inl ⟨e, calc_fallback_raises terms invoice_date_str amount dt e
            hpd hs1 (Or.inr hs2) h30, Or.inr (addDaysChecked_error dt 30 e h30)⟩
        | ok d30 =>
          exact Or.inr ⟨_, calc_fallback terms invoice_date_str amount dt d30
            hpd hs1 (Or.inr hs2) h30, rfl, rfl⟩
      · cases hdue : addDaysChecked dt days with
        | error e =>
          exact Or.inl ⟨e, calc_plain_net_raises terms invoice_date_str amount dt
            days e hpd hs1 hnet hs2 hdue, Or.inr (addDaysChecked_error dt days e hdue)⟩
        | ok d2 =>
          exact Or.inr ⟨_, calc_plain_net terms invoice_date_str amount dt d2 days
            hpd hs1 hnet hs2 hdue, rfl, rfl⟩
    · have hnetf : pyIn ['n', 'e', 't'] (pyStripS (strLower terms)).data = false := by
        simpa using hnet
      cases h30 : addDaysChecked dt 30 with
      | error e =>
        exact Or.inl ⟨e, calc_fallback_raises terms invoice_date_str amount dt e
          hpd hs1 (Or.inl hnetf) h30, Or.inr (addDaysChecked_error dt 30 e h30)⟩
      | ok d30 =>
        exact Or.inr ⟨_, calc_fallback terms invoice_date_str amount dt d30
          hpd hs1 (Or.inl hnetf) h30, rfl, rfl⟩
  · cases hd1 : addDaysChecked dt dd with
    | error e =>
      exact Or.inl ⟨e, calc_discount_raises_first terms invoice_date_str amount dt
        g1i g1f dd nd e hpd hs1 hd1, Or.inr (addDaysChecked_error dt dd e hd1)⟩
    | ok d1 =>
      cases hd2 : addDaysChecked dt nd with
      | error e =>
        exact Or.inl ⟨e, calc_discount_raises_second terms invoice_date_str amount
          dt d1 g1i g1f dd nd e hpd hs1 hd1 hd2,
          Or.inr (addDaysChecked_error dt nd e hd2)⟩
      | ok d2 =>
        by_cases hlt : dd < nd
        · by_cases hone : (1 : ℚ) - decimalValue g1i g1f / 100 = 0
          · exact Or.inl ⟨PyError.zeroDivisionError,
              calc_discount_zero_division terms invoice_date_str amount dt d1 d2
                g1i g1f dd nd hpd hs1 hd1 hd2 hlt hone, Or.inl rfl⟩
          · by_cases hapr : hurdle_rate < decimalValue g1i g1f / 100
                / (1 - decimalValue g1i g1f / 100)
                * ((365 : ℚ) / ((nd - dd : Nat) : ℚ))
            · exact Or.inr ⟨_, calc_discount_taken terms invoice_date_str amount dt
                d1 d2 g1i g1f dd nd hpd hs1 hd1 hd2 hlt hone hapr, rfl, rfl⟩
            · exact Or.inr ⟨_, calc_discount_below terms invoice_date_str amount dt
                d1 d2 g1i g1f dd nd hpd hs1 hd1 hd2 hlt hone hapr, rfl, rfl⟩
        · exact Or.inr ⟨_, calc_discount_degenerate terms invoice_date_str amount dt
            d1 d2 g1i g1f dd nd hpd hs1 hd1 hd2 hlt, rfl, rfl⟩

/-- The captured digit run `2` denotes the rational `2`. -/
theorem decimalValue_two : decimalValue ['2'] [] = 2 := by
  have hg2 : digitsToNat ['2'] = 2 := by decide
  have hg0 : digitsToNat ([] : List Char) = 0 := by decide
  rw [decimalValue, hg2, hg0]
  norm_num

/-- The implied APR of `2/10 net 30` beats the 10 percent hurdle. -/
theorem apr_two_ten_thirty : hurdle_rate < decimalValue ['2'] [] / 100
    / (1 - decimalValue ['2'] [] / 100) * ((365 : ℚ) / ((30 - 10 : Nat) : ℚ)) := by
  rw [decimalValue_two]
  norm_num [hurdle_rate]

/-- A 2 percent discount fraction is not 1. -/
theorem one_sub_two_percent_ne : (1 : ℚ) - decimalValue ['2'] [] / 100 ≠ 0 := by
  rw [decimalValue_two]
  norm_num

/-- C6: `optimize_payment("2/10 Net 30", "2024-01-01", 1000)` yields discount
date 2024-01-11, due date 2024-01-31, savings 20.00, and, the implied APR
`(0.02/0.98)*(365/20) = 73/196 ≈ 0.3724` exceeding the 10 percent hurdle,
an optimal payment date equal to the discount date. -/
theorem c6_two_ten_net_thirty_example :
    planDiscountDate (calculate_optimal_payment "2/10 Net 30" "2024-01-01" 1000)
        = some "2024-01-11"
    ∧ planDueDate (calculate_optimal_payment "2/10 Net 30" "2024-01-01" 1000)
        = some "2024-01-31"
    ∧ planSavings (calculate_optimal_payment "2/10 Net 30" "2024-01-01" 1000) = 20
    ∧ planOptimalDate (calculate_optimal_payment "2/10 Net 30" "2024-01-01" 1000)
        = some "2024-01-11"
    ∧ ((2 : ℚ) / 100 / (1 - 2 / 100)) * ((365 : ℚ) / 20) = 73 / 196
    ∧ hurdle_rate < (73 / 196 : ℚ) := by
  have h := calc_discount_taken "2/10 Net 30" "2024-01-01" 1000 ⟨2024, 1, 1⟩
    ⟨2024, 1, 11⟩ ⟨2024, 1, 31⟩ ['2'] [] 10 30 (by decide) (by decide) (by decide)
    (by decide) (by norm_num) one_sub_two_percent_ne apr_two_ten_thirty
  rw [h]
  refine ⟨by decide, by decide, ?_, by decide, by norm_num, by norm_num [hurdle_rate]⟩
  show 1000 * (decimalValue ['2'] [] / 100) = 20
  rw [decimalValue_two]
  norm_num

/-- C5 counterexample: `optimize_payment("2/10 net 3660", "2024-01-01", 1000)`
matches the discount-net pattern with discount fraction `0.02`, yet returns
`potential_savings = 0`, not `1000 * 0.02 = 20`: the source only records the
savings when the implied APR beats the hurdle rate (here
`(0.02/0.98)*(365/3650) = 1/490 < 0.10`). -/
theorem c5_counterexample_savings_zero :
    planSavings (calculate_optimal_payment "2/10 net 3660" "2024-01-01" 1000) = 0
    ∧ (1000 : ℚ) * (2 / 100) = 20
    ∧ (0 : ℚ) ≠ 20 := by
  have hapr : ¬ hurdle_rate < decimalValue ['2'] [] / 100
      / (1 - decimalValue ['2'] [] / 100) * ((365 : ℚ) / ((3660 - 10 : Nat) : ℚ)) := by
    rw [decimalValue_two]
    norm_num [hurdle_rate]
  have h := calc_discount_below "2/10 net 3660" "2024-01-01" 1000 ⟨2024, 1, 1⟩
    ⟨2024, 1, 11⟩ ⟨2034, 1, 8⟩ ['2'] [] 10 3660 (by decide) (by decide) (by decide)
    (by decide) (by norm_num) one_sub_two_percent_ne hapr
  rw [h]
  refine ⟨rfl, by norm_num, by norm_num⟩

/-- C5 amended: for a terms string matching the discount-net pattern with
captured discount number `d` (digit runs `g1i.g1f`), discount window `dd` and
net days `nd`, a valid invoice date, and inputs on which the source does not
crash (both day offsets within the `timedelta`/`datetime` bounds and a
discount fraction other than 1), `optimize_payment` returns
`potential_savings = amount * d/100` exactly when `dd < nd` and the implied
APR exceeds the 10 percent hurdle; otherwise the savings are zero. -/
theorem c5_amended_savings (terms invoice_date_str : String) (amount : ℚ)
    (dt d1 d2 : Date) (g1i g1f : List Char) (dd nd : Nat)
    (hpd : parseDate invoice_date_str = some dt)
    (hs1 : searchPat1 (pyStripS (strLower terms)).data = some (g1i, g1f, dd, nd))
    (hd1 : addDaysChecked dt dd = Except.ok d1)
    (hd2 : addDaysChecked dt nd = Except.ok d2)
    (hone : (1 : ℚ) - decimalValue g1i g1f / 100 ≠ 0) :
    planSavings (calculate_optimal_payment terms invoice_date_str amount) =
      if dd < nd ∧ hurdle_rate < decimalValue g1i g1f / 100
          / (1 - decimalValue g1i g1f / 100) * ((365 : ℚ) / ((nd - dd : Nat) : ℚ))
      then amount * (decimalValue g1i g1f / 100) else 0 := by
  by_cases hlt : dd < nd
  · by_cases hapr : hurdle_rate < decimalValue g1i g1f / 100
        / (1 - decimalValue g1i g1f / 100) * ((365 : ℚ) / ((nd - dd : Nat) : ℚ))
    · rw [calc_discount_taken terms invoice_date_str amount dt d1 d2 g1i g1f dd nd
        hpd hs1 hd1 hd2 hlt hone hapr, if_pos ⟨hlt, hapr⟩]
      rfl
    · rw [calc_discount_below terms invoice_date_str amount dt d1 d2 g1i g1f dd nd
        hpd hs1 hd1 hd2 hlt hone hapr, if_neg (fun hc => hapr hc.2)]
      rfl
  · rw [calc_discount_degenerate terms invoice_date_str amount dt d1 d2 g1i g1f
      dd nd hpd hs1 hd1 hd2 hlt, if_neg (fun hc => hlt hc.1)]
    rfl

/-- Witness for the amended C5 at `2/10 net 30`: the APR clears the hurdle,
so the savings are recorded. -/
theorem c5_amended_savings_witness :
    planSavings (calculate_optimal_payment "2/10 net 30" "2024-01-01" 1000) = 20 := by
  have h := c5_amended_savings "2/10 net 30" "2024-01-01" 1000 ⟨2024, 1, 1⟩
    ⟨2024, 1, 11⟩ ⟨2024, 1, 31⟩ ['2'] [] 10 30 (by decide) (by decide) (by decide)
    (by decide) one_sub_two_percent_ne
  rw [h, if_pos ⟨by norm_num, apr_two_ten_thirty⟩, decimalValue_two]
  norm_num

/-- C7 counterexample: the `try` at lines 211-216 wraps only `strptime`, so
with a perfectly valid date the source still raises uncaught exceptions:
`"100/10 net 30"` has discount fraction exactly 1 and line 246 divides by
zero, and `"net 99999999999"` exceeds the `timedelta` day bound at line 269.
Neither call returns the structured error dictionary. -/
theorem c7_counterexample_uncaught_exceptions :
    calculate_optimal_payment "100/10 net 30" "2024-01-01" 1000
      = Except.error PyError.zeroDivisionError
    ∧ calculate_optimal_payment "net 99999999999" "2024-01-01" 1000
      = Except.error PyError.overflowError
    ∧ isErrorResult (calculate_optimal_payment "100/10 net 30" "2024-01-01" 1000)
      = false := by
  have hone : (1 : ℚ) - decimalValue ['1', '0', '0'] [] / 100 = 0 := by
    have hg : digitsToNat ['1', '0', '0'] = 100 := by decide
    have hg0 : digitsToNat ([] : List Char) = 0 := by decide
    rw [decimalValue, hg, hg0]
    norm_num
  have h1 := calc_discount_zero_division "100/10 net 30" "2024-01-01" 1000
    ⟨2024, 1, 1⟩ ⟨2024, 1, 11⟩ ⟨2024, 1, 31⟩ ['1', '0', '0'] [] 10 30
    (by decide) (by decide) (by decide) (by decide) (by norm_num) hone
  have h2 := calc_plain_net_raises "net 99999999999" "2024-01-01" 1000
    ⟨2024, 1, 1⟩ 99999999999 PyError.overflowError
    (by decide) (by decide) (by decide) (by decide) (by decide)
  refine ⟨h1, h2, ?_⟩
  rw [h1]
  rfl

/-- C7 amended: `optimize_payment` returns the structured error dictionary
exactly when the invoice date fails to parse as `YYYY-MM-DD`; whenever a call
returns a plan, its `due_date` and `optimal_payment_date` are populated (with
the Net-30 fallback and unparseable-terms rationale when no pattern sets a
due date and the default addition stays in range); but the function is not
exception-free: after a successful date parse a run may escape with
`ZeroDivisionError` (discount fraction exactly 1 at line 246) or
`OverflowError` (`timedelta`/date bounds at lines 238-239, 269, 277), and
those are the only exceptions, never raised on an unparseable date. -/
theorem c7_amended_error_taxonomy (terms invoice_date_str : String) (amount : ℚ) :
    (isErrorResult (calculate_optimal_payment terms invoice_date_str amount) = true
      ↔ parseDate invoice_date_str = none)
    ∧ (∀ p : PaymentPlan,
        calculate_optimal_payment terms invoice_date_str amount
            = Except.ok (PaymentResult.plan p) →
        p.due_date.isSome = true ∧ p.optimal_payment_date.isSome = true)
    ∧ (∀ (dt d30 : Date), parseDate invoice_date_str = some dt →
        searchPat1 (pyStripS (strLower terms)).data = none →
        (pyIn ['n', 'e', 't'] (pyStripS (strLower terms)).data = false
          ∨ searchPat2 (pyStripS (strLower terms)).data = none) →
        addDaysChecked dt 30 = Except.ok d30 →
        calculate_optimal_payment terms invoice_date_str amount
          = Except.ok (PaymentResult.plan
            { payment_terms := pyStripS (strLower terms),
              invoice_date := invoice_date_str,
              due_date := some (formatDate d30),
              discount_date := none,
              optimal_payment_date := some (formatDate d30),
              potential_savings := 0,
              reasoning := "Could not parse terms, defaulting to Net 30" }))
    ∧ (∀ e : PyError,
        calculate_optimal_payment terms invoice_date_str amount
            = Except.error e →
        (parseDate invoice_date_str).isSome = true
          ∧ (e = PyError.zeroDivisionError ∨ e = PyError.overflowError)) := by
  refine ⟨?_, ?_,
    fun dt d30 hdt hs1 hrest h30 =>
      calc_fallback terms invoice_date_str amount dt d30 hdt hs1 hrest h30, ?_⟩
  · cases hpd : parseDate invoice_date_str with
    | none =>
      have hcall : calculate_optimal_payment terms invoice_date_str amount
          = Except.ok (PaymentResult.error "Invalid date format. Use YYYY-MM-DD") := by
        unfold calculate_optimal_payment
        rw [hpd]
      simp [hcall, isErrorResult]
    | some dt =>
      rcases calc_result_shapes terms invoice_date_str amount dt hpd with
        ⟨e, hc, _⟩ | ⟨p0, hc, _, _⟩
      · rw [hc]
        simp [isErrorResult, hpd]
      · rw [hc]
        simp [isErrorResult, hpd]
  · cases hpd : parseDate invoice_date_str with
    | none =>
      intro p hp
      have hcall : calculate_optimal_payment terms invoice_date_str amount
          = Except.ok (PaymentResult.error "Invalid date format. Use YYYY-MM-DD") := by
        unfold calculate_optimal_payment
        rw [hpd]
      rw [hcall] at hp
      exact absurd (Except.ok.inj hp) (by simp)
    | some dt =>
      rcases calc_result_shapes terms invoice_date_str amount dt hpd with
        ⟨e, hc, _⟩ | ⟨p0, hc, hd, ho⟩
      · intro p hp
        rw [hc] at hp
        exact absurd hp (by simp)
      · intro p hp
        have hpp := Except.ok.inj (hc.symm.trans hp)
        cases PaymentResult.plan.inj hpp
        exact ⟨hd, ho⟩
  · cases hpd : parseDate invoice_date_str with
    | none =>
      intro e he
      have hcall : calculate_optimal_payment terms invoice_date_str amount
          = Except.ok (PaymentResult.error "Invalid date format. Use YYYY-MM-DD") := by
        unfold calculate_optimal_payment
        rw [hpd]
      rw [hcall] at he
      exact absurd he (by simp)
    | some dt =>
      intro e he
      rcases calc_result_shapes terms invoice_date_str amount dt hpd with
        ⟨e', hc, hkind⟩ | ⟨p0, hc, _, _⟩
      · cases Except.error.inj (hc.symm.trans he)
        exact ⟨rfl, hkind⟩
      · rw [hc] at he
        exact absurd he (by simp)

/-- Witness for the amended C7: unparseable terms on a valid in-range date
produce the Net-30 fallback plan. -/
theorem c7_amended_error_taxonomy_witness :
    calculate_optimal_payment "garbage terms" "2024-03-01" 100
      = Except.ok (PaymentResult.plan
      { payment_terms := "garbage terms", invoice_date := "2024-03-01",
        due_date := some "2024-03-31", discount_date := none,
        optimal_payment_date := some "2024-03-31", potential_savings := 0,
        reasoning := "Could not parse terms, defaulting to Net 30" }) := by
  have h := (c7_amended_error_taxonomy "garbage terms" "2024-03-01" 100).2.2.1
    ⟨2024, 3, 1⟩ ⟨2024, 3, 31⟩ (by decide) (by decide) (Or.inl (by decide))
    (by decide)
  rw [h]
  decide

/-- C9 counterexample: whitespace around the slash is NOT tolerated.
`"2 / 10 Net 30"` fails the discount-net pattern and falls through to the
plain-net branch: no discount date, zero savings, optimal date = due date —
unlike `"2/10 Net 30"`. -/
theorem c9_counterexample_ws_around_slash :
    planDiscountDate (calculate_optimal_payment "2 / 10 Net 30" "2024-01-01" 1000)
        = none
    ∧ planSavings (calculate_optimal_payment "2 / 10 Net 30" "2024-01-01" 1000) = 0
    ∧ planOptimalDate (calculate_optimal_payment "2 / 10 Net 30" "2024-01-01" 1000)
        = some "2024-01-31"
    ∧ planDiscountDate (calculate_optimal_payment "2/10 Net 30" "2024-01-01" 1000)
        = some "2024-01-11"
    ∧ planSavings (calculate_optimal_payment "2/10 Net 30" "2024-01-01" 1000) = 20 := by
  have h1 := calc_plain_net "2 / 10 Net 30" "2024-01-01" 1000 ⟨2024, 1, 1⟩
    ⟨2024, 1, 31⟩ 30 (by decide) (by decide) (by decide) (by decide) (by decide)
  have h2 := calc_discount_taken "2/10 Net 30" "2024-01-01" 1000 ⟨2024, 1, 1⟩
    ⟨2024, 1, 11⟩ ⟨2024, 1, 31⟩ ['2'] [] 10 30 (by decide) (by decide) (by decide)
    (by decide) (by norm_num) one_sub_two_percent_ne apr_two_ten_thirty
  rw [h1, h2]
  refine ⟨rfl, rfl, by decide, by decide, ?_⟩
  show 1000 * (decimalValue ['2'] [] / 100) = 20
  rw [decimalValue_two]
  norm_num

/-- C9 amended: the discount-net pattern tolerates optional whitespace around
the comma separator and between `net` and the day count, a trailing `%` after
the discount number, and a missing space before `net` — but not whitespace
around the slash: `"2 / 10 Net 30"` fails the discount-net pattern and is
treated as plain `Net 30`. -/
theorem c9_amended_separator_tolerance :
    (planDiscountDate (calculate_optimal_payment "2/10 ,  Net 30" "2024-01-01" 1000)
        = some "2024-01-11"
      ∧ planSavings (calculate_optimal_payment "2/10 ,  Net 30" "2024-01-01" 1000) = 20)
    ∧ planDiscountDate (calculate_optimal_payment "2%/10 Net 30" "2024-01-01" 1000)
        = some "2024-01-11"
    ∧ planDiscountDate (calculate_optimal_payment "2/10net30" "2024-01-01" 1000)
        = some "2024-01-11"
    ∧ (planDiscountDate (calculate_optimal_payment "2 / 10 Net 30" "2024-01-01" 1000)
        = none
      ∧ planDueDate (calculate_optimal_payment "2 / 10 Net 30" "2024-01-01" 1000)
        = some "2024-01-31") := by
  have h1 := calc_discount_taken "2/10 ,  Net 30" "2024-01-01" 1000 ⟨2024, 1, 1⟩
    ⟨2024, 1, 11⟩ ⟨2024, 1, 31⟩ ['2'] [] 10 30 (by decide) (by decide) (by decide)
    (by decide) (by norm_num) one_sub_two_percent_ne apr_two_ten_thirty
  have h2 := calc_discount_taken "2%/10 Net 30" "2024-01-01" 1000 ⟨2024, 1, 1⟩
    ⟨2024, 1, 11⟩ ⟨2024, 1, 31⟩ ['2'] [] 10 30 (by decide) (by decide) (by decide)
    (by decide) (by norm_num) one_sub_two_percent_ne apr_two_ten_thirty
  have h3 := calc_discount_taken "2/10net30" "2024-01-01" 1000 ⟨2024, 1, 1⟩
    ⟨2024, 1, 11⟩ ⟨2024, 1, 31⟩ ['2'] [] 10 30 (by decide) (by decide) (by decide)
    (by decide) (by norm_num) one_sub_two_percent_ne apr_two_ten_thirty
  have h4 := calc_plain_net "2 / 10 Net 30" "2024-01-01" 1000 ⟨2024, 1, 1⟩
    ⟨2024, 1, 31⟩ 30 (by decide) (by decide) (by decide) (by decide) (by decide)
  rw [h1, h2, h3, h4]
  refine ⟨⟨by decide, ?_⟩, by decide, by decide, rfl, by decide⟩
  show 1000 * (decimalValue ['2'] [] / 100) = 20
  rw [decimalValue_two]
  norm_num

end InvoiceAgent
